import Mathlib

/-!
Verification development for the 3D sphere graph module
(js/modules/sphere-graph.js): node distribution on a sphere, rotation,
perspective projection, depth sorting, opacity mapping, animation clock,
and the start/stop lifecycle of the render loop.

Numbers are modelled as real numbers. JavaScript-specific numeric
operations are modelled explicitly: `jsRound` is Math.round (round half
toward positive infinity), `jsFmod` is the `%` operator on numbers
(remainder with truncated quotient).
-/

noncomputable section

open Real

/-- A 3D point, as the plain objects `{x, y, z}` used by the module. -/
structure Point3 where
  x : ℝ
  y : ℝ
  z : ℝ
deriving DecidableEq

/-- Result of `projectPerspective`: `{screenX, screenY, scale, z}`. -/
structure Projected where
  screenX : ℝ
  screenY : ℝ
  scale : ℝ
  z : ℝ

-- Configuration constants (sphere-graph.js lines 19-23, 31-32).

def SPHERE_RADIUS : ℝ := 220

def CAMERA_DISTANCE : ℝ := 600

def CENTER_X : ℝ := 350

def CENTER_Y : ℝ := 350

def ANIMATION_PERIOD : ℝ := 30000

def NUM_NODES : ℕ := 7

def GOLDEN_RATIO : ℝ := (1 + Real.sqrt 5) / 2

/-- JavaScript Math.round: nearest integer, ties toward positive infinity. -/
def jsRound (v : ℝ) : ℝ := (⌊v + 1 / 2⌋ : ℤ)

/-- Truncation toward zero, as coercion to integer in JavaScript remainder. -/
def jsTrunc (v : ℝ) : ℤ := if 0 ≤ v then ⌊v⌋ else ⌈v⌉

/-- JavaScript `%` on numbers: remainder with quotient truncated toward zero. -/
def jsFmod (a b : ℝ) : ℝ := a - b * jsTrunc (a / b)

/-- Embeds `sphericalToCartesian(theta, phi, r)` (sphere-graph.js lines 90-95). -/
def sphericalToCartesian (theta phi r : ℝ) : Point3 :=
  { x := r * Real.cos phi * Real.sin theta
    y := r * Real.sin phi
    z := r * Real.cos phi * Real.cos theta }

/-- Embeds `rotatePoint(point, spinAngle, tiltAngle)` (sphere-graph.js
lines 107-123): Y-axis rotation (spin) by `spinAngle`, then X-axis rotation
(tilt) by `tiltAngle` applied to the already-spun depth `z1`. -/
def rotatePoint (point : Point3) (spinAngle tiltAngle : ℝ) : Point3 :=
  let cosY := Real.cos spinAngle
  let sinY := Real.sin spinAngle
  let x1 := point.x * cosY + point.z * sinY
  let z1 := -point.x * sinY + point.z * cosY
  let cosX := Real.cos tiltAngle
  let sinX := Real.sin tiltAngle
  let y2 := point.y * cosX - z1 * sinX
  let z2 := point.y * sinX + z1 * cosX
  { x := x1, y := y2, z := z2 }

/-- Embeds `projectPerspective(point)` (sphere-graph.js lines 134-147):
perspective division by `depth = CAMERA_DISTANCE + z`, screen coordinates
rounded with Math.round, Y axis flipped. -/
def projectPerspective (point : Point3) : Projected :=
  let depth := CAMERA_DISTANCE + point.z
  let scale := CAMERA_DISTANCE / depth
  let screenX := CENTER_X + point.x * scale
  let screenY := CENTER_Y - point.y * scale
  { screenX := jsRound screenX
    screenY := jsRound screenY
    scale := scale
    z := point.z }

/-- Stated from the spec for comparison with `rotatePoint`: a single
rotation about the vertical (Y) axis, leaving y unchanged. -/
def specRotateY (a : ℝ) (p : Point3) : Point3 :=
  { x := p.x * Real.cos a + p.z * Real.sin a
    y := p.y
    z := -p.x * Real.sin a + p.z * Real.cos a }

/-- Stated from the spec for comparison with `rotatePoint`: a single
rotation about the horizontal (X) axis, leaving x unchanged. -/
def specRotateX (a : ℝ) (p : Point3) : Point3 :=
  { x := p.x
    y := p.y * Real.cos a - p.z * Real.sin a
    z := p.y * Real.sin a + p.z * Real.cos a }

-- Animation clock (sphere-graph.js lines 164-172).

/-- Normalized animation progress `t = (timestamp % ANIMATION_PERIOD) /
ANIMATION_PERIOD` (sphere-graph.js line 166). -/
def tickT (timestamp : ℝ) : ℝ := jsFmod timestamp ANIMATION_PERIOD / ANIMATION_PERIOD

/-- Spin angle `t * 2 * Math.PI` (sphere-graph.js line 169). -/
def spinAngleAt (timestamp : ℝ) : ℝ := tickT timestamp * 2 * Real.pi

/-- Tilt angle `Math.sin(t * Math.PI) * Math.PI` (sphere-graph.js line 172). -/
def tiltAngleAt (timestamp : ℝ) : ℝ := Real.sin (tickT timestamp * Real.pi) * Real.pi

-- Node distribution (sphere-graph.js lines 31-47).

/-- A node of the Fibonacci-sphere distribution: `{theta, phi, r, index}`. -/
structure SphereNode where
  theta : ℝ
  phi : ℝ
  r : ℝ
  index : ℕ

/-- Body of the distribution loop (sphere-graph.js lines 35-47) for a given
node count `n` and loop index `i`. -/
def sphereNode (n i : ℕ) : SphereNode :=
  let y : ℝ := 1 - (2 * ((i : ℝ) + 0.5)) / (n : ℝ)
  let theta : ℝ := (2 * Real.pi * (i : ℝ)) / GOLDEN_RATIO
  let phi : ℝ := Real.arcsin y
  { theta := theta, phi := phi, r := SPHERE_RADIUS, index := i }

/-- The distribution loop run for `n` nodes, in loop order. -/
def sphereNodesList (n : ℕ) : List SphereNode :=
  (List.range n).map (sphereNode n)

/-- The module's `SPHERE_NODES` array: the loop run with `NUM_NODES = 7`. -/
def SPHERE_NODES : List SphereNode := sphereNodesList NUM_NODES

/-- Position on the sphere of a distribution node, via
`sphericalToCartesian` as the animation loop does (line 177). -/
def nodePos (nd : SphereNode) : Point3 :=
  sphericalToCartesian nd.theta nd.phi nd.r

-- Depth-based opacity (sphere-graph.js lines 214 and 225).

/-- Node opacity `0.4 + (proj.scale * 0.6)` (sphere-graph.js line 214). -/
def nodeOpacity (scale : ℝ) : ℝ := 0.4 + scale * 0.6

/-- Label opacity `0.3 + (proj.scale * 0.7)` (sphere-graph.js line 225). -/
def labelOpacity (scale : ℝ) : ℝ := 0.3 + scale * 0.7

-- Depth sorting (sphere-graph.js lines 191-194).

/-- A projected node entry `{...projected, index}` (sphere-graph.js
lines 185-188). -/
structure ProjNode where
  screenX : ℝ
  screenY : ℝ
  scale : ℝ
  z : ℝ
  index : ℕ

/-- Order produced by the comparator `(a, b) => b.z - a.z`: `a` may be
placed before `b` exactly when `b.z ≤ a.z` (descending by z). -/
def zDesc (a b : ProjNode) : Prop := b.z ≤ a.z

instance : DecidableRel zDesc := fun a b => Real.decidableLE b.z a.z

instance : IsTotal ProjNode zDesc := ⟨fun a b => le_total b.z a.z⟩

instance : IsTrans ProjNode zDesc := ⟨fun _ _ _ h1 h2 => le_trans h2 h1⟩

/-- The sort `projectedNodes.sort((a, b) => b.z - a.z)` (sphere-graph.js
line 194): ECMAScript Array.prototype.sort is stable, and with this
comparator it produces the stable descending-by-z order, modelled by a
stable insertion sort under `zDesc`. -/
def sortByDepth (l : List ProjNode) : List ProjNode :=
  l.insertionSort zDesc

-- Lifecycle (sphere-graph.js lines 71-76, 264-294, 302-307). DOM elements
-- are abstracted as identifiers (natural numbers); querySelector results
-- that may be absent are Options.

/-- The queryable content of the `.service-graph` SVG element: the
`.service-graph__node--category` list, the per-index
`.service-graph__label--category:nth-of-type(i+1)` lookup, the
`.service-graph__nodes` group, the `.service-graph__edges` group and the
`line` elements inside it. -/
structure SvgDoc where
  categoryNodes : List ℕ
  labelAt : ℕ → Option ℕ
  nodesGroupEl : Option ℕ
  edgesGroupEl : Option ℕ
  edgeLines : List ℕ

/-- The graph container element passed to `initSphereGraph`; its
`.service-graph` query may fail. -/
structure Container where
  svg : Option SvgDoc

/-- Module-level state (sphere-graph.js lines 71-76). -/
structure ModuleState where
  animationFrameId : Option ℕ
  nodeElements : List ℕ
  labelElements : List (Option ℕ)
  relationshipEdges : List ℕ
  nodesGroup : Option ℕ
  relationshipEdgesGroup : Option ℕ
deriving DecidableEq

/-- Initial module state: no frame scheduled, empty caches (lines 71-76). -/
def initialModuleState : ModuleState :=
  { animationFrameId := none
    nodeElements := []
    labelElements := []
    relationshipEdges := []
    nodesGroup := none
    relationshipEdgesGroup := none }

/-- The browser's animation-frame queue: pending callback ids and the next
id to hand out. requestAnimationFrame ids are positive, so `nextId` starts
at 1 in a fresh browser. -/
structure Browser where
  pending : List ℕ
  nextId : ℕ
deriving DecidableEq

/-- requestAnimationFrame: schedules a callback, returns a fresh id. -/
def requestAnimationFrame (br : Browser) : ℕ × Browser :=
  (br.nextId, { pending := br.pending ++ [br.nextId], nextId := br.nextId + 1 })

/-- cancelAnimationFrame: unschedules the callback with the given id. -/
def cancelAnimationFrame (id : ℕ) (br : Browser) : Browser :=
  { br with pending := br.pending.filter (fun x => x ≠ id) }

/-- Embeds `initSphereGraph(container)` (sphere-graph.js lines 264-294):
bail out when the container is missing or its `.service-graph` query fails;
otherwise cache the queried elements and schedule the animation loop. -/
def initSphereGraph (container : Option Container) (st : ModuleState)
    (br : Browser) : ModuleState × Browser :=
  match container with
  | none => (st, br)
  | some c =>
    match c.svg with
    | none => (st, br)
    | some svg =>
      let nodeEls := svg.categoryNodes
      let labelEls := SPHERE_NODES.map (fun nd => svg.labelAt nd.index)
      let edges :=
        match svg.edgesGroupEl with
        | some _ => svg.edgeLines
        | none => st.relationshipEdges
      let idAndBr := requestAnimationFrame br
      ({ animationFrameId := some idAndBr.1
         nodeElements := nodeEls
         labelElements := labelEls
         relationshipEdges := edges
         nodesGroup := svg.nodesGroupEl
         relationshipEdgesGroup := svg.edgesGroupEl }, idAndBr.2)

/-- Embeds `stopSphereGraph()` (sphere-graph.js lines 302-307): when the
stored handle is truthy (a non-null, non-zero number), cancel it and null
it out; otherwise do nothing. -/
def stopSphereGraph (st : ModuleState) (br : Browser) : ModuleState × Browser :=
  match st.animationFrameId with
  | none => (st, br)
  | some id =>
    if id ≠ 0 then
      ({ st with animationFrameId := none }, cancelAnimationFrame id br)
    else
      (st, br)

end

/-- The scale field of a projection, unfolded. -/
theorem projectPerspective_scale (p : Point3) :
    (projectPerspective p).scale = CAMERA_DISTANCE / (CAMERA_DISTANCE + p.z) := rfl

/-- C1: rotatePoint applies first the Y-axis (spin) rotation giving
x1 = x·cos s + z·sin s, z1 = −x·sin s + z·cos s, then the X-axis (tilt)
rotation on the already-spun depth z1 giving y2 = y·cos t − z1·sin t,
z2 = y·sin t + z1·cos t, returning (x1, y2, z2); and for some point and
some non-zero angle pair the reversed composition (tilt then spin) gives a
different result. -/
theorem C1_rotate_spin_then_tilt :
    (∀ (p : Point3) (s t : ℝ),
      rotatePoint p s t =
        { x := p.x * Real.cos s + p.z * Real.sin s
          y := p.y * Real.cos t - (-p.x * Real.sin s + p.z * Real.cos s) * Real.sin t
          z := p.y * Real.sin t + (-p.x * Real.sin s + p.z * Real.cos s) * Real.cos t } ∧
      rotatePoint p s t = specRotateX t (specRotateY s p)) ∧
    (∃ (p : Point3) (s t : ℝ), ¬(s = 0 ∧ t = 0) ∧
      specRotateY s (specRotateX t p) ≠ rotatePoint p s t) := by
  refine ⟨fun p s t => ⟨rfl, rfl⟩,
    ⟨{ x := 0, y := 1, z := 0 }, Real.pi / 2, Real.pi / 2, ?_, ?_⟩⟩
  · rintro ⟨h1, _⟩
    exact Real.pi_ne_zero (by linarith)
  · intro h
    have hx := congrArg Point3.x h
    simp [specRotateX, specRotateY, rotatePoint, Real.cos_pi_div_two,
      Real.sin_pi_div_two] at hx

/-- C2 counterexample: at the point (1, 0, 600) (depth 1200 > 0) the code
returns screenX = 351, not the claimed unrounded value
centerX + x·scale = 350.5: projectPerspective rounds its screen
coordinates with Math.round. -/
theorem C2_counterexample :
    0 < CAMERA_DISTANCE + (600 : ℝ) ∧
    (projectPerspective { x := 1, y := 0, z := 600 }).screenX ≠
      CENTER_X + 1 * (CAMERA_DISTANCE / (CAMERA_DISTANCE + 600)) := by
  constructor
  · norm_num [CAMERA_DISTANCE]
  · have h : ((350 : ℝ) + 1 * (600 / (600 + 600))) + 1 / 2 = ((351 : ℤ) : ℝ) := by
      norm_num
    simp only [projectPerspective, jsRound, CENTER_X, CAMERA_DISTANCE, h,
      Int.floor_intCast]
    norm_num

/-- C2 amended: for every point with depth = CAMERA_DISTANCE + z > 0,
projectPerspective returns scale = CAMERA_DISTANCE / depth and z unchanged,
and the screen coordinates are the claimed centerX + x·scale and
centerY − y·scale rounded to the nearest integer with Math.round (this
rounding is the one transformation the original claim omitted); moreover
scale · depth = CAMERA_DISTANCE. -/
theorem C2_projection_formula (p : Point3)
    (hdepth : 0 < CAMERA_DISTANCE + p.z) :
    projectPerspective p =
      { screenX := jsRound (CENTER_X + p.x * (CAMERA_DISTANCE / (CAMERA_DISTANCE + p.z)))
        screenY := jsRound (CENTER_Y - p.y * (CAMERA_DISTANCE / (CAMERA_DISTANCE + p.z)))
        scale := CAMERA_DISTANCE / (CAMERA_DISTANCE + p.z)
        z := p.z } ∧
    (projectPerspective p).scale * (CAMERA_DISTANCE + p.z) = CAMERA_DISTANCE :=
  ⟨rfl, div_mul_cancel₀ _ (ne_of_gt hdepth)⟩

/-- Witness for C2_projection_formula at the origin. -/
theorem C2_projection_formula_witness :
    projectPerspective { x := 0, y := 0, z := 0 } =
      { screenX := jsRound (CENTER_X + 0 * (CAMERA_DISTANCE / (CAMERA_DISTANCE + 0)))
        screenY := jsRound (CENTER_Y - 0 * (CAMERA_DISTANCE / (CAMERA_DISTANCE + 0)))
        scale := CAMERA_DISTANCE / (CAMERA_DISTANCE + 0)
        z := 0 } ∧
    (projectPerspective { x := 0, y := 0, z := 0 }).scale * (CAMERA_DISTANCE + 0) =
      CAMERA_DISTANCE :=
  C2_projection_formula { x := 0, y := 0, z := 0 } (by norm_num [CAMERA_DISTANCE])

/-- C9: when the container handle is absent, or its `.service-graph` SVG
element is absent, initSphereGraph is a silent no-op: the module state is
untouched and no animation frame is scheduled. -/
theorem C9_init_missing_noop (container : Option Container) (st : ModuleState)
    (br : Browser)
    (h : container = none ∨ ∃ c, container = some c ∧ c.svg = none) :
    initSphereGraph container st br = (st, br) := by
  rcases h with h | ⟨c, rfl, hsvg⟩
  · subst h; rfl
  · simp only [initSphereGraph, hsvg]

/-- Witness for C9_init_missing_noop with an absent container. -/
theorem C9_init_missing_noop_witness :
    initSphereGraph none initialModuleState { pending := [], nextId := 1 } =
      (initialModuleState, { pending := [], nextId := 1 }) :=
  C9_init_missing_noop none initialModuleState { pending := [], nextId := 1 }
    (Or.inl rfl)

/-- C10: stopSphereGraph is idempotent and safe: for any reachable state
(the stored handle, if any, is a positive requestAnimationFrame id, and
the module's pending callbacks are exactly those matching the handle)
stopping leaves the handle null and no scheduled callback pending, a
second stop changes nothing, and stopping when never started is a no-op. -/
theorem C10_stop_idempotent (st : ModuleState) (br : Browser)
    (hpos : ∀ id, st.animationFrameId = some id → 0 < id)
    (hpend : ∀ id ∈ br.pending, st.animationFrameId = some id) :
    (stopSphereGraph st br).1.animationFrameId = none ∧
    (stopSphereGraph st br).2.pending = [] ∧
    stopSphereGraph (stopSphereGraph st br).1 (stopSphereGraph st br).2 =
      stopSphereGraph st br ∧
    (st.animationFrameId = none → stopSphereGraph st br = (st, br)) := by
  cases hfi : st.animationFrameId with
  | none =>
    have hp : br.pending = [] := by
      cases hbr : br.pending with
      | nil => rfl
      | cons a l =>
        have := hpend a (by rw [hbr]; exact List.mem_cons_self a l)
        rw [hfi] at this
        exact absurd this (by simp)
    simp [stopSphereGraph, hfi, hp]
  | some id =>
    have hid : id ≠ 0 := Nat.pos_iff_ne_zero.mp (hpos id hfi)
    have hp : (cancelAnimationFrame id br).pending = [] := by
      simp only [cancelAnimationFrame]
      rw [List.filter_eq_nil_iff]
      intro a ha
      have := hpend a ha
      rw [hfi] at this
      simp at this
      simp [this]
    refine ⟨?_, ?_, ?_, ?_⟩
    · simp [stopSphereGraph, hfi, hid]
    · simp [stopSphereGraph, hfi, hid, hp]
    · simp [stopSphereGraph, hfi, hid]
    · intro hnone; exact absurd hnone (by simp)

/-- Witness for C10_stop_idempotent on a started state with one pending
frame. -/
theorem C10_stop_idempotent_witness :
    (stopSphereGraph { initialModuleState with animationFrameId := some 1 }
        { pending := [1], nextId := 2 }).1.animationFrameId = none ∧
    (stopSphereGraph { initialModuleState with animationFrameId := some 1 }
        { pending := [1], nextId := 2 }).2.pending = [] ∧
    stopSphereGraph
        (stopSphereGraph { initialModuleState with animationFrameId := some 1 }
          { pending := [1], nextId := 2 }).1
        (stopSphereGraph { initialModuleState with animationFrameId := some 1 }
          { pending := [1], nextId := 2 }).2 =
      stopSphereGraph { initialModuleState with animationFrameId := some 1 }
        { pending := [1], nextId := 2 } ∧
    (({ initialModuleState with animationFrameId := some 1 } :
        ModuleState).animationFrameId = none →
      stopSphereGraph { initialModuleState with animationFrameId := some 1 }
          { pending := [1], nextId := 2 } =
        ({ initialModuleState with animationFrameId := some 1 },
          { pending := [1], nextId := 2 })) :=
  C10_stop_idempotent { initialModuleState with animationFrameId := some 1 }
    { pending := [1], nextId := 2 }
    (by intro id h; simp [initialModuleState] at h; omega)
    (by intro id hid; simp at hid; simp [hid, initialModuleState])

/-- C4 counterexample: z = −220 is in the achievable range (|z| ≤ 220), the
scale there is 600/380 ≈ 1.58, and both the node opacity 0.4 + scale·0.6
and the label opacity 0.3 + scale·0.7 exceed 1.0, contradicting the claimed
upper bounds. -/
theorem C4_counterexample :
    |(-220 : ℝ)| ≤ SPHERE_RADIUS ∧
    1 < nodeOpacity (projectPerspective { x := 0, y := 0, z := -220 }).scale ∧
    1 < labelOpacity (projectPerspective { x := 0, y := 0, z := -220 }).scale := by
  refine ⟨by norm_num [SPHERE_RADIUS], ?_, ?_⟩ <;>
    norm_num [nodeOpacity, labelOpacity, projectPerspective_scale, CAMERA_DISTANCE]

/-- C4 amended: for every achievable scale (scale of a point with
|z| ≤ sphereRadius = 220, cameraDistance = 600) the node opacity
0.4 + scale·0.6 lies in [0.4, 128/95] (≈ [0.4, 1.347]) and the label
opacity 0.3 + scale·0.7 lies in [0.3, 267/190] (≈ [0.3, 1.405]); the
claimed upper bounds 1.0 hold only for scale ≤ 1, i.e. z ≥ 0. -/
theorem C4_opacity_bounds (p : Point3) (hz : |p.z| ≤ SPHERE_RADIUS) :
    0.4 ≤ nodeOpacity (projectPerspective p).scale ∧
    nodeOpacity (projectPerspective p).scale ≤ 128 / 95 ∧
    0.3 ≤ labelOpacity (projectPerspective p).scale ∧
    labelOpacity (projectPerspective p).scale ≤ 267 / 190 := by
  rw [abs_le, SPHERE_RADIUS.eq_def] at hz
  obtain ⟨hz1, hz2⟩ := hz
  rw [nodeOpacity.eq_def, labelOpacity.eq_def, projectPerspective_scale,
    CAMERA_DISTANCE.eq_def]
  have hd0 : (0 : ℝ) < 600 + p.z := by linarith
  have hs1 : (600 : ℝ) / (600 + p.z) ≤ 30 / 19 := by
    rw [div_le_div_iff₀ hd0 (by norm_num)]
    linarith
  have hs2 : (30 : ℝ) / 41 ≤ 600 / (600 + p.z) := by
    rw [div_le_div_iff₀ (by norm_num) hd0]
    linarith
  refine ⟨by nlinarith, by nlinarith, by nlinarith, by nlinarith⟩

/-- Witness for C4_opacity_bounds at z = 0. -/
theorem C4_opacity_bounds_witness :
    |(0 : ℝ)| ≤ SPHERE_RADIUS ∧
    (0.4 ≤ nodeOpacity (projectPerspective { x := 0, y := 0, z := 0 }).scale ∧
     nodeOpacity (projectPerspective { x := 0, y := 0, z := 0 }).scale ≤ 128 / 95 ∧
     0.3 ≤ labelOpacity (projectPerspective { x := 0, y := 0, z := 0 }).scale ∧
     labelOpacity (projectPerspective { x := 0, y := 0, z := 0 }).scale ≤ 267 / 190) :=
  ⟨by norm_num [SPHERE_RADIUS],
   C4_opacity_bounds { x := 0, y := 0, z := 0 } (by norm_num [SPHERE_RADIUS])⟩

/-- C5 counterexample: for the points (0,0,0) and (0,0,100) with z1 = 0 <
z2 = 100 (both within the sphere bound), the projection scales are 1 and
6/7: the point with smaller z gets the LARGER scale, because in this code
larger z means farther from the camera (depth = cameraDistance + z), so
the claimed inequality project(z1).scale < project(z2).scale fails. -/
theorem C5_counterexample :
    ({ x := 0, y := 0, z := 0 } : Point3).z < ({ x := 0, y := 0, z := 100 } : Point3).z ∧
    |(0 : ℝ)| ≤ SPHERE_RADIUS ∧ |(100 : ℝ)| ≤ SPHERE_RADIUS ∧
    ¬ (projectPerspective { x := 0, y := 0, z := 0 }).scale <
        (projectPerspective { x := 0, y := 0, z := 100 }).scale := by
  refine ⟨by norm_num, by norm_num [SPHERE_RADIUS], by norm_num [SPHERE_RADIUS], ?_⟩
  rw [projectPerspective_scale, projectPerspective_scale, CAMERA_DISTANCE.eq_def]
  norm_num

/-- C5 amended: for two points with identical (x, y) and z1 < z2, where z1
is the NEARER point (depth = cameraDistance + z grows with z, so positive z
is farther), projecting the farther point z2 yields a strictly smaller
scale: project(z2).scale < project(z1).scale, given |z1|, |z2| ≤
sphereRadius < cameraDistance. -/
theorem C5_projection_monotone (p1 p2 : Point3)
    (hx : p1.x = p2.x) (hy : p1.y = p2.y)
    (h1 : |p1.z| ≤ SPHERE_RADIUS) (h2 : |p2.z| ≤ SPHERE_RADIUS)
    (hlt : p1.z < p2.z) :
    (projectPerspective p2).scale < (projectPerspective p1).scale := by
  rw [abs_le, SPHERE_RADIUS.eq_def] at h1 h2
  rw [projectPerspective_scale, projectPerspective_scale, CAMERA_DISTANCE.eq_def]
  have hd1 : (0 : ℝ) < 600 + p1.z := by linarith [h1.1]
  have hd2 : (0 : ℝ) < 600 + p2.z := by linarith [h2.1]
  rw [div_lt_div_iff₀ hd2 hd1]
  nlinarith

/-- Witness for C5_projection_monotone at z1 = 0, z2 = 100. -/
theorem C5_projection_monotone_witness :
    (projectPerspective { x := 0, y := 0, z := 100 }).scale <
      (projectPerspective { x := 0, y := 0, z := 0 }).scale :=
  C5_projection_monotone { x := 0, y := 0, z := 0 } { x := 0, y := 0, z := 100 }
    rfl rfl (by norm_num [SPHERE_RADIUS]) (by norm_num [SPHERE_RADIUS]) (by norm_num)

/-- C6: the animation clock is a pure function of the timestamp with
period ANIMATION_PERIOD: tick(0), tick(period) and tick(2·period) yield
exactly equal spin and tilt angles, and for every timestamp the angles are
spin = t·2·π and tilt = sin(t·π)·π with t = (timestamp % period)/period. -/
theorem C6_clock_periodic :
    spinAngleAt 0 = spinAngleAt ANIMATION_PERIOD ∧
    spinAngleAt ANIMATION_PERIOD = spinAngleAt (2 * ANIMATION_PERIOD) ∧
    tiltAngleAt 0 = tiltAngleAt ANIMATION_PERIOD ∧
    tiltAngleAt ANIMATION_PERIOD = tiltAngleAt (2 * ANIMATION_PERIOD) ∧
    (∀ ts : ℝ, spinAngleAt ts = jsFmod ts ANIMATION_PERIOD / ANIMATION_PERIOD * 2 * Real.pi ∧
      tiltAngleAt ts = Real.sin (jsFmod ts ANIMATION_PERIOD / ANIMATION_PERIOD * Real.pi) * Real.pi) := by
  have h0 : tickT 0 = 0 := by
    norm_num [tickT, jsFmod, jsTrunc, ANIMATION_PERIOD]
  have h1 : tickT ANIMATION_PERIOD = 0 := by
    norm_num [tickT, jsFmod, jsTrunc, ANIMATION_PERIOD]
  have h2 : tickT (2 * ANIMATION_PERIOD) = 0 := by
    norm_num [tickT, jsFmod, jsTrunc, ANIMATION_PERIOD]
  refine ⟨?_, ?_, ?_, ?_, fun ts => ⟨rfl, rfl⟩⟩ <;>
    simp [spinAngleAt, tiltAngleAt, h0, h1, h2]

/-- A point converted from spherical coordinates has squared norm r². -/
theorem sphericalToCartesian_normSq (theta phi r : ℝ) :
    (sphericalToCartesian theta phi r).x ^ 2 + (sphericalToCartesian theta phi r).y ^ 2 +
      (sphericalToCartesian theta phi r).z ^ 2 = r ^ 2 := by
  have h1 := Real.sin_sq_add_cos_sq theta
  have h2 := Real.sin_sq_add_cos_sq phi
  simp only [sphericalToCartesian]
  linear_combination (r ^ 2 * Real.cos phi ^ 2) * h1 + r ^ 2 * h2

/-- rotatePoint preserves the squared Euclidean norm. -/
theorem rotatePoint_normSq (p : Point3) (s t : ℝ) :
    (rotatePoint p s t).x ^ 2 + (rotatePoint p s t).y ^ 2 + (rotatePoint p s t).z ^ 2 =
      p.x ^ 2 + p.y ^ 2 + p.z ^ 2 := by
  have h1 := Real.sin_sq_add_cos_sq s
  have h2 := Real.sin_sq_add_cos_sq t
  simp only [rotatePoint]
  linear_combination (p.x ^ 2 + p.z ^ 2) * h1 +
    (p.y ^ 2 + (-p.x * Real.sin s + p.z * Real.cos s) ^ 2) * h2

/-- Every generated node carries radius SPHERE_RADIUS. -/
theorem mem_SPHERE_NODES_r {nd : SphereNode} (hnd : nd ∈ SPHERE_NODES) :
    nd.r = SPHERE_RADIUS := by
  obtain ⟨i, _, rfl⟩ := List.mem_map.mp hnd
  rfl

/-- C8: for every distribution node and all spin/tilt angles, the rotated
point's depth coordinate satisfies |z| ≤ 220 (rotation preserves the norm
of the radius-220 point), hence the projection divisor
depth = CAMERA_DISTANCE + z is at least 380 > 0, there is no division by
zero, and the scale is strictly positive and bounded:
600/820 ≤ scale ≤ 600/380. -/
theorem C8_projection_safe (nd : SphereNode) (hnd : nd ∈ SPHERE_NODES) (s t : ℝ) :
    |(rotatePoint (nodePos nd) s t).z| ≤ SPHERE_RADIUS ∧
    380 ≤ CAMERA_DISTANCE + (rotatePoint (nodePos nd) s t).z ∧
    0 < (projectPerspective (rotatePoint (nodePos nd) s t)).scale ∧
    600 / 820 ≤ (projectPerspective (rotatePoint (nodePos nd) s t)).scale ∧
    (projectPerspective (rotatePoint (nodePos nd) s t)).scale ≤ 600 / 380 := by
  have hr := mem_SPHERE_NODES_r hnd
  have hnorm : (rotatePoint (nodePos nd) s t).x ^ 2 +
      (rotatePoint (nodePos nd) s t).y ^ 2 +
      (rotatePoint (nodePos nd) s t).z ^ 2 = 220 ^ 2 := by
    rw [rotatePoint_normSq, nodePos.eq_def, sphericalToCartesian_normSq, hr,
      SPHERE_RADIUS.eq_def]
  have hx2 := sq_nonneg (rotatePoint (nodePos nd) s t).x
  have hy2 := sq_nonneg (rotatePoint (nodePos nd) s t).y
  have hz2 : (rotatePoint (nodePos nd) s t).z ^ 2 ≤ 220 ^ 2 := by nlinarith
  have hzabs : |(rotatePoint (nodePos nd) s t).z| ≤ 220 :=
    abs_le.mpr ⟨by nlinarith, by nlinarith⟩
  have hz1 : -220 ≤ (rotatePoint (nodePos nd) s t).z := (abs_le.mp hzabs).1
  have hz2' : (rotatePoint (nodePos nd) s t).z ≤ 220 := (abs_le.mp hzabs).2
  have hd0 : (0 : ℝ) < 600 + (rotatePoint (nodePos nd) s t).z := by linarith
  refine ⟨by rw [SPHERE_RADIUS.eq_def]; exact hzabs,
    by rw [CAMERA_DISTANCE.eq_def]; linarith, ?_, ?_, ?_⟩
  · rw [projectPerspective_scale, CAMERA_DISTANCE.eq_def]
    positivity
  · rw [projectPerspective_scale, CAMERA_DISTANCE.eq_def,
      div_le_div_iff₀ (by norm_num) hd0]
    linarith
  · rw [projectPerspective_scale, CAMERA_DISTANCE.eq_def,
      div_le_div_iff₀ hd0 (by norm_num)]
    linarith

/-- Witness for C8_projection_safe at node 0 with zero angles. -/
theorem C8_projection_safe_witness :
    |(rotatePoint (nodePos (sphereNode NUM_NODES 0)) 0 0).z| ≤ SPHERE_RADIUS ∧
    380 ≤ CAMERA_DISTANCE + (rotatePoint (nodePos (sphereNode NUM_NODES 0)) 0 0).z ∧
    0 < (projectPerspective (rotatePoint (nodePos (sphereNode NUM_NODES 0)) 0 0)).scale ∧
    600 / 820 ≤ (projectPerspective (rotatePoint (nodePos (sphereNode NUM_NODES 0)) 0 0)).scale ∧
    (projectPerspective (rotatePoint (nodePos (sphereNode NUM_NODES 0)) 0 0)).scale ≤ 600 / 380 :=
  C8_projection_safe (sphereNode NUM_NODES 0)
    (List.mem_map.mpr ⟨0, by simp [NUM_NODES], rfl⟩) 0 0

/-- C7: for every n ≥ 1 the distributor yields exactly n nodes by the
golden-ratio spiral formulas, deterministically and in loop order; node i
carries index i, so indices are dense and unique over [0, n); and no two
generated nodes occupy the same position on the sphere (their Cartesian
heights r·y_i are pairwise distinct). -/
theorem C7_distribution (n : ℕ) (hn : 1 ≤ n) :
    (sphereNodesList n).length = n ∧
    (sphereNodesList n).map SphereNode.index = List.range n ∧
    (∀ i : ℕ, sphereNode n i =
      { theta := (2 * Real.pi * (i : ℝ)) / GOLDEN_RATIO
        phi := Real.arcsin (1 - (2 * ((i : ℝ) + 0.5)) / (n : ℝ))
        r := SPHERE_RADIUS
        index := i }) ∧
    (∀ i j : ℕ, i < n → j < n → i ≠ j →
      nodePos (sphereNode n i) ≠ nodePos (sphereNode n j)) := by
  have hn0 : (0 : ℝ) < (n : ℝ) := by exact_mod_cast hn
  have hne : (n : ℝ) ≠ 0 := ne_of_gt hn0
  have hyval : ∀ k : ℕ, k < n →
      (nodePos (sphereNode n k)).y = 220 * (1 - (2 * ((k : ℝ) + 0.5)) / (n : ℝ)) := by
    intro k hk
    have hkn : (k : ℝ) + 1 ≤ (n : ℝ) := by exact_mod_cast Nat.succ_le_of_lt hk
    have hk0 : (0 : ℝ) ≤ (k : ℝ) := Nat.cast_nonneg k
    have hb1 : -1 ≤ 1 - (2 * ((k : ℝ) + 0.5)) / (n : ℝ) := by
      rw [neg_le_sub_iff_le_add, div_le_iff₀ hn0]
      linarith
    have hb2 : 1 - (2 * ((k : ℝ) + 0.5)) / (n : ℝ) ≤ 1 := by
      have : 0 ≤ (2 * ((k : ℝ) + 0.5)) / (n : ℝ) := by positivity
      linarith
    show SPHERE_RADIUS * Real.sin (Real.arcsin (1 - (2 * ((k : ℝ) + 0.5)) / (n : ℝ))) = _
    rw [Real.sin_arcsin hb1 hb2, SPHERE_RADIUS.eq_def]
  refine ⟨by simp [sphereNodesList], ?_, fun i => rfl, ?_⟩
  · rw [sphereNodesList.eq_def, List.map_map]
    have hcomp : SphereNode.index ∘ sphereNode n = id := rfl
    rw [hcomp, List.map_id]
  · intro i j hi hj hij hEq
    have hy := congrArg Point3.y hEq
    rw [hyval i hi, hyval j hj] at hy
    field_simp [hne] at hy
    exact hij hy

/-- Witness for C7_distribution at n = 1. -/
theorem C7_distribution_witness :
    (sphereNodesList 1).length = 1 ∧
    (sphereNodesList 1).map SphereNode.index = List.range 1 ∧
    (∀ i : ℕ, sphereNode 1 i =
      { theta := (2 * Real.pi * (i : ℝ)) / GOLDEN_RATIO
        phi := Real.arcsin (1 - (2 * ((i : ℝ) + 0.5)) / ((1 : ℕ) : ℝ))
        r := SPHERE_RADIUS
        index := i }) ∧
    (∀ i j : ℕ, i < 1 → j < 1 → i ≠ j →
      nodePos (sphereNode 1 i) ≠ nodePos (sphereNode 1 j)) :=
  C7_distribution 1 (by norm_num)

/-- Inserting an element that satisfies `p` into a list none of whose
`p`-satisfying elements precede it (in the order) puts it at the head of
the `p`-filtered list. -/
theorem filter_orderedInsert_pos {α : Type} (r : α → α → Prop) [DecidableRel r]
    (p : α → Bool) (a : α) (l : List α) (ha : p a = true)
    (hcl : ∀ b ∈ l, ¬ r a b → p b = false) :
    (l.orderedInsert r a).filter p = a :: l.filter p := by
  induction l with
  | nil => simp [List.orderedInsert, ha]
  | cons b tl ih =>
    rw [List.orderedInsert]
    by_cases h : r a b
    · rw [if_pos h]
      simp [List.filter_cons, ha]
    · rw [if_neg h]
      have hb : p b = false := hcl b (List.mem_cons_self b tl) h
      simp only [List.filter_cons, hb, Bool.false_eq_true, if_false]
      exact ih (fun c hc hrc => hcl c (List.mem_cons_of_mem b hc) hrc)

/-- Inserting an element that does not satisfy `p` leaves the `p`-filtered
list unchanged. -/
theorem filter_orderedInsert_neg {α : Type} (r : α → α → Prop) [DecidableRel r]
    (p : α → Bool) (a : α) (l : List α) (ha : p a = false) :
    (l.orderedInsert r a).filter p = l.filter p := by
  induction l with
  | nil => simp [List.orderedInsert, ha]
  | cons b tl ih =>
    rw [List.orderedInsert]
    by_cases h : r a b
    · rw [if_pos h]
      simp [List.filter_cons, ha]
    · rw [if_neg h]
      simp only [List.filter_cons, ih]

/-- Stability of insertion sort: when elements satisfying `p` can never be
strictly ordered after elements not related to them (hcompat), sorting
preserves the relative order of the `p`-satisfying elements. -/
theorem filter_insertionSort_eq {α : Type} (r : α → α → Prop) [DecidableRel r]
    (p : α → Bool)
    (hcompat : ∀ a b : α, p a = true → ¬ r a b → p b = false) :
    ∀ l : List α, (l.insertionSort r).filter p = l.filter p := by
  intro l
  induction l with
  | nil => rfl
  | cons a tl ih =>
    rw [List.insertionSort]
    cases ha : p a with
    | true =>
      rw [filter_orderedInsert_pos r p a _ ha
        (fun b _ hrb => hcompat a b ha hrb), ih]
      simp [List.filter_cons, ha]
    | false =>
      rw [filter_orderedInsert_neg r p a _ ha, ih]
      simp [List.filter_cons, ha]

/-- C3: the per-frame compositor sorts projected nodes farthest-first
(descending z): the output is a permutation of the input, pairwise ordered
by zDesc; nodes at z = [5, −5, 0] come out in z-order [5, 0, −5]; and the
sort is stable — for every depth value, the input's sublist of nodes at
that depth is preserved verbatim (hence equal-z nodes keep their original
index order, and repeated calls on equal inputs agree). -/
theorem C3_depth_sort :
    (∀ l : List ProjNode, List.Perm (sortByDepth l) l ∧ (sortByDepth l).Sorted zDesc) ∧
    sortByDepth
        [{ screenX := 0, screenY := 0, scale := 1, z := 5, index := 0 },
         { screenX := 0, screenY := 0, scale := 1, z := -5, index := 1 },
         { screenX := 0, screenY := 0, scale := 1, z := 0, index := 2 }] =
      [{ screenX := 0, screenY := 0, scale := 1, z := 5, index := 0 },
       { screenX := 0, screenY := 0, scale := 1, z := 0, index := 2 },
       { screenX := 0, screenY := 0, scale := 1, z := -5, index := 1 }] ∧
    (∀ (l : List ProjNode) (z0 : ℝ),
      (sortByDepth l).filter (fun nd => nd.z = z0) =
        l.filter (fun nd => nd.z = z0)) := by
  refine ⟨fun l => ⟨List.perm_insertionSort zDesc l, List.sorted_insertionSort zDesc l⟩,
    ?_, ?_⟩
  · rw [sortByDepth.eq_def]
    rw [List.insertionSort, List.insertionSort, List.insertionSort, List.insertionSort]
    rw [List.orderedInsert, List.orderedInsert, List.orderedInsert]
    rw [if_neg (by rw [zDesc.eq_def]; norm_num), List.orderedInsert]
    rw [if_pos (by rw [zDesc.eq_def]; norm_num)]
  · intro l z0
    exact filter_insertionSort_eq zDesc (fun nd => nd.z = z0)
      (fun a b hpa hrb => by
        simp only [decide_eq_true_eq] at hpa
        simp only [zDesc.eq_def, not_le] at hrb
        simp only [decide_eq_false_iff_not]
        intro hb
        rw [hpa, hb] at hrb
        exact lt_irrefl z0 hrb) l
